import Mathlib

/-!
Verification of the study-buddy backend against its specification.

The embedding follows the TypeScript source:
- `supabase/functions/secure-auth/index.ts`: login rate limiter,
  constant-time comparison, password hashing and the login handler
  branches for admins and schools;
- `supabase/functions/get-students/index.ts`: admin session check;
- the study-chat function: transcript trimming, model fallback and
  session-analysis extraction.

Timestamps are milliseconds as naturals.  The in-memory rate-limit map
is modelled per key: the state for one identifier is an
`Option RateRecord` (`none` = no entry in the map).  Strings handled by
byte- or code-unit-level primitives are modelled as `List Nat`
(UTF-8 bytes / UTF-16 code units; the two agree on ASCII data, which is
all the handlers compare), and chat text as `List Char`.
-/

namespace StudyBuddy

/-! ## Rate limiter (secure-auth/index.ts, lines 8-65) -/

def RATE_LIMIT_WINDOW : Nat := 15 * 60 * 1000

def MAX_ATTEMPTS : Nat := 5

def BLOCK_DURATION : Nat := 30 * 60 * 1000

structure RateRecord where
  count : Nat
  lastAttempt : Nat
  blockedUntil : Nat
  deriving DecidableEq

structure RateCheckResult where
  allowed : Bool
  waitSeconds : Option Nat
  deriving DecidableEq

/-- JS `Math.ceil(a / b)` for natural `a`, positive natural `b`. -/
def jsCeilDiv (a b : Nat) : Nat := (a + b - 1) / b

/-- `checkRateLimit` from secure-auth/index.ts.  Returns the result
together with the state of the identifier's map entry after the call
(the JS function mutates the map in the expiry and block branches). -/
def checkRateLimit (now : Nat) (st : Option RateRecord) :
    RateCheckResult × Option RateRecord :=
  match st with
  | none => (⟨true, none⟩, none)
  | some record =>
    if record.blockedUntil > now then
      (⟨false, some (jsCeilDiv (record.blockedUntil - now) 1000)⟩, some record)
    else if now - record.lastAttempt > RATE_LIMIT_WINDOW then
      (⟨true, none⟩, none)
    else if record.count ≥ MAX_ATTEMPTS then
      (⟨false, some (jsCeilDiv BLOCK_DURATION 1000)⟩,
        some { record with blockedUntil := now + BLOCK_DURATION })
    else
      (⟨true, none⟩, some record)

/-- `recordAttempt` from secure-auth/index.ts, returning the new state
of the identifier's map entry. -/
def recordAttempt (now : Nat) (success : Bool) (st : Option RateRecord) :
    Option RateRecord :=
  if success then
    none
  else
    match st with
    | none => some ⟨1, now, 0⟩
    | some record =>
      some { record with count := record.count + 1, lastAttempt := now }

/-- A sequence of failed attempts recorded at the given times, oldest
first. -/
def recordFailures (times : List Nat) (st : Option RateRecord) :
    Option RateRecord :=
  times.foldl (fun s t => recordAttempt t false s) st

/-! ## Credential verification (secure-auth/index.ts, lines 67-119)

`secureCompare` works on JS strings code unit by code unit; strings are
modelled as `List Nat` of code units.  `hashPassword` is the hex-encoded
SHA-256 digest of the candidate password concatenated with the first 32
characters of the service secret; SHA-256 (a Web Crypto primitive the
function calls) is embedded concretely below.  All data compared here is
ASCII, where UTF-8 bytes and UTF-16 code units agree. -/

/-- Constant-time comparison from secure-auth/index.ts: on a length
mismatch the loop still runs but the function returns `false`; on equal
lengths it ORs together the XOR of each code-unit pair and succeeds
exactly when the accumulator is zero. -/
def secureCompare (a b : List Nat) : Bool :=
  if a.length ≠ b.length then false
  else ((List.zipWith (fun x y => x ^^^ y) a b).foldl (fun r x => r ||| x) 0) == 0

def w32 (n : Nat) : Nat := n % 4294967296

def rotr32 (n x : Nat) : Nat := w32 ((x >>> n) ||| (x <<< (32 - n)))

def smallSigma0 (x : Nat) : Nat := rotr32 7 x ^^^ rotr32 18 x ^^^ (x >>> 3)

def smallSigma1 (x : Nat) : Nat := rotr32 17 x ^^^ rotr32 19 x ^^^ (x >>> 10)

def bigSigma0 (x : Nat) : Nat := rotr32 2 x ^^^ rotr32 13 x ^^^ rotr32 22 x

def bigSigma1 (x : Nat) : Nat := rotr32 6 x ^^^ rotr32 11 x ^^^ rotr32 25 x

def K64 : List Nat :=
  [1116352408, 1899447441, 3049323471, 3921009573, 961987163,
   1508970993, 2453635748, 2870763221, 3624381080, 310598401,
   607225278, 1426881987, 1925078388, 2162078206, 2614888103,
   3248222580, 3835390401, 4022224774, 264347078, 604807628,
   770255983, 1249150122, 1555081692, 1996064986, 2554220882,
   2821834349, 2952996808, 3210313671, 3336571891, 3584528711,
   113926993, 338241895, 666307205, 773529912, 1294757372,
   1396182291, 1695183700, 1986661051, 2177026350, 2456956037,
   2730485921, 2820302411, 3259730800, 3345764771, 3516065817,
   3600352804, 4094571909, 275423344, 430227734, 506948616,
   659060556, 883997877, 958139571, 1322822218, 1537002063,
   1747873779, 1955562222, 2024104815, 2227730452, 2361852424,
   2428436474, 2756734187, 3204031479, 3329325298]

def H0 : List Nat :=
  [1779033703, 3144134277, 1013904242, 2773480762,
   1359893119, 2600822924, 528734635, 1541459225]

def be64 (n : Nat) : List Nat :=
  [n / 72057594037927936 % 256, n / 281474976710656 % 256,
   n / 1099511627776 % 256, n / 4294967296 % 256,
   n / 16777216 % 256, n / 65536 % 256, n / 256 % 256, n % 256]

def wordBytes (w : Nat) : List Nat :=
  [w / 16777216 % 256, w / 65536 % 256, w / 256 % 256, w % 256]

def padMessage (msg : List Nat) : List Nat :=
  msg ++ [128] ++ List.replicate ((119 - msg.length % 64) % 64) 0 ++
    be64 (msg.length * 8)

def toBlocksAux : List Nat → List Nat → List (List Nat)
  | acc, [] => if acc = [] then [] else [acc.reverse]
  | acc, x :: rest =>
      if acc.length = 63 then (x :: acc).reverse :: toBlocksAux [] rest
      else toBlocksAux (x :: acc) rest

def toBlocks (l : List Nat) : List (List Nat) := toBlocksAux [] l

def bytesToWords : List Nat → List Nat
  | a :: b :: c :: d :: rest =>
      (a * 16777216 + b * 65536 + c * 256 + d) :: bytesToWords rest
  | _ => []

def extendLoop : Nat → List Nat → List Nat
  | 0, ws => ws
  | fuel + 1, ws =>
      let n := ws.length
      let nw := w32 (smallSigma1 (ws.getD (n - 2) 0) + ws.getD (n - 7) 0 +
        smallSigma0 (ws.getD (n - 15) 0) + ws.getD (n - 16) 0)
      extendLoop fuel (ws ++ [nw])

def sha256Round (st : List Nat) (kw : Nat × Nat) : List Nat :=
  match st with
  | [a, b, c, d, e, f, g, h] =>
    let S1 := bigSigma1 e
    let ch := (e &&& f) ^^^ ((e ^^^ 4294967295) &&& g)
    let temp1 := w32 (h + S1 + ch + kw.1 + kw.2)
    let S0 := bigSigma0 a
    let maj := (a &&& b) ^^^ (a &&& c) ^^^ (b &&& c)
    let temp2 := w32 (S0 + maj)
    [w32 (temp1 + temp2), a, b, c, w32 (d + temp1), e, f, g]
  | other => other

def processBlock (hs : List Nat) (block : List Nat) : List Nat :=
  let ws := extendLoop 48 (bytesToWords block)
  let final := (K64.zip ws).foldl sha256Round hs
  List.zipWith (fun x y => w32 (x + y)) hs final

/-- SHA-256 over a byte list, as computed by `crypto.subtle.digest` in
`hashPassword`. -/
def sha256 (msg : List Nat) : List Nat :=
  ((toBlocks (padMessage msg)).foldl processBlock H0).foldr
    (fun w acc => wordBytes w ++ acc) []

/-- JS `b.toString(16)` digit (lowercase). -/
def hexDigitCode (n : Nat) : Nat := if n < 10 then 48 + n else 87 + n

/-- Hex encoding of a byte list as the code units of the JS string
`hashArray.map(padded hex).join('')`. -/
def bytesToHexCodes (bs : List Nat) : List Nat :=
  bs.foldr (fun b acc => hexDigitCode (b / 16) :: hexDigitCode (b % 16) :: acc) []

/-- `hashPassword` from secure-auth/index.ts: hex SHA-256 digest of the
password concatenated with the server secret prefix. -/
def hashPassword (password secretPrefix : List Nat) : List Nat :=
  bytesToHexCodes (sha256 (password ++ secretPrefix))

/-- `verifyPassword` from secure-auth/index.ts. -/
def verifyPassword (password storedHash secretPrefix : List Nat) : Bool :=
  secureCompare (hashPassword password secretPrefix) storedHash

/-- The login handler's password acceptance test: the hashed check and
the legacy plaintext check are both computed, and the attempt succeeds
when either holds (`!isValidHash && !isLegacyPlainText` rejects). -/
def loginPasswordCheck (password storedHash secretPrefix : List Nat) : Bool :=
  verifyPassword password storedHash secretPrefix || secureCompare password storedHash

/-! ## Login handler (secure-auth/index.ts, lines 141-291)

The external data-store lookup is modelled by its three observable
outcomes: an error, no matching row, or a row.  A login request is a
single step from the identifier's rate-limit state to an HTTP outcome
and a new rate-limit state. -/

inductive Lookup (α : Type) where
  | err : Lookup α
  | notFound : Lookup α
  | found : α → Lookup α

structure AdminRow where
  password_hash : List Nat
  deriving DecidableEq

structure SchoolRow where
  password_hash : List Nat
  is_banned : Bool
  deriving DecidableEq

structure LoginResult where
  status : Nat
  errorMsg : Option String
  success : Bool
  deriving DecidableEq

/-- The `userType === "admin"` login branch. -/
def adminLoginStep (now : Nat) (st : Option RateRecord) (lookup : Lookup AdminRow)
    (password secret : List Nat) : LoginResult × Option RateRecord :=
  if !(checkRateLimit now st).1.allowed then
    (⟨429, some ("Too many login attempts. Please try again in " ++
        toString ((checkRateLimit now st).1.waitSeconds.getD 0) ++ " seconds."), false⟩,
      (checkRateLimit now st).2)
  else
    match lookup with
    | Lookup.err =>
        (⟨401, some ("Authentication failed"), false⟩,
          recordAttempt now false (checkRateLimit now st).2)
    | Lookup.notFound =>
        (⟨401, some ("Invalid credentials"), false⟩,
          recordAttempt now false (checkRateLimit now st).2)
    | Lookup.found admin =>
        if loginPasswordCheck password admin.password_hash secret then
          (⟨200, none, true⟩, recordAttempt now true (checkRateLimit now st).2)
        else
          (⟨401, some ("Invalid credentials"), false⟩,
            recordAttempt now false (checkRateLimit now st).2)

/-- The `userType === "school"` login branch, with the suspension check
between the lookup and the password verification. -/
def schoolLoginStep (now : Nat) (st : Option RateRecord) (lookup : Lookup SchoolRow)
    (password secret : List Nat) : LoginResult × Option RateRecord :=
  if !(checkRateLimit now st).1.allowed then
    (⟨429, some ("Too many login attempts. Please try again in " ++
        toString ((checkRateLimit now st).1.waitSeconds.getD 0) ++ " seconds."), false⟩,
      (checkRateLimit now st).2)
  else
    match lookup with
    | Lookup.err =>
        (⟨401, some ("Authentication failed"), false⟩,
          recordAttempt now false (checkRateLimit now st).2)
    | Lookup.notFound =>
        (⟨401, some ("Invalid credentials"), false⟩,
          recordAttempt now false (checkRateLimit now st).2)
    | Lookup.found school =>
        if school.is_banned then
          (⟨403, some ("This school account has been suspended"), false⟩,
            (checkRateLimit now st).2)
        else if loginPasswordCheck password school.password_hash secret then
          (⟨200, none, true⟩, recordAttempt now true (checkRateLimit now st).2)
        else
          (⟨401, some ("Invalid credentials"), false⟩,
            recordAttempt now false (checkRateLimit now st).2)

/-! ## get-students admin session check (get-students/index.ts, lines 84-99)

The admin branch derives an admin id as `session_token.split('_')[1]`
and looks it up; a lookup error or missing row yields HTTP 401.  The
external lookup is a parameter collapsing error and no-row to `none`;
the derived id is `none` when the split has no second element (JS
`undefined`), and the uuid lookup with an undefined id returns no row,
which the theorems take as a hypothesis on the lookup parameter. -/

/-- JS `token.split('_')`. -/
def splitUnderscore : List Char → List (List Char)
  | [] => [[]]
  | c :: rest =>
      match splitUnderscore rest with
      | [] => [[]]
      | h :: t => if c = '_' then [] :: h :: t else (c :: h) :: t

/-- JS `session_token?.split('_')[1]`. -/
def deriveAdminId (token : List Char) : Option (List Char) :=
  (splitUnderscore token).get? 1

structure GsAdminRow where
  id : List Char
  deriving DecidableEq

/-- HTTP status of the admin-branch session verification: 401 unless the
derived id resolves to an admin row. -/
def getStudentsAdminStatus
    (lookupAdmin : Option (List Char) → Option GsAdminRow)
    (token : List Char) : Nat :=
  match lookupAdmin (deriveAdminId token) with
  | none => 401
  | some _ => 200

/-! ## Study-chat pipeline (study-chat function)

Chat text is `List Char`.  `trimChars` models JS `String.trim` on the
whitespace characters that occur in this pipeline's data. -/

def jsWhitespace : List Char :=
  [' ', '\t', '\n', '\r', Char.ofNat 11, Char.ofNat 12, Char.ofNat 160,
   Char.ofNat 0xFEFF, Char.ofNat 0x2028, Char.ofNat 0x2029]

def isJsSpace (c : Char) : Bool := jsWhitespace.contains c

def trimChars (s : List Char) : List Char :=
  ((s.dropWhile isJsSpace).reverse.dropWhile isJsSpace).reverse

structure ChatMessage where
  role : List Char
  content : List Char
  imageUrl : Option (List Char)
  deriving DecidableEq

inductive AIContent where
  | plain : List Char → AIContent
  | withImage : List Char → List Char → AIContent
  deriving DecidableEq

structure AIMessage where
  role : List Char
  content : AIContent
  deriving DecidableEq

def defaultImageText : List Char :=
  ("Please analyze this image from my study materials.").toList

/-- How one transcript entry is forwarded: an image-bearing entry
becomes mixed content whose text falls back to a fixed prompt when the
entry's content is empty (JS `msg.content || ...`). -/
def toAIMessage (m : ChatMessage) : AIMessage :=
  match m.imageUrl with
  | some url =>
      ⟨m.role, AIContent.withImage
        (if m.content = [] then defaultImageText else m.content) url⟩
  | none => ⟨m.role, AIContent.plain m.content⟩

def systemRole : List Char := ("system").toList

/-- JS `messages.slice(-6)`. -/
def sliceLast6 (l : List ChatMessage) : List ChatMessage :=
  l.drop (l.length - 6)

/-- The messages array sent to the model: the system message followed by
the last six transcript entries. -/
def buildChatMessages (systemContent : List Char) (messages : List ChatMessage) :
    List AIMessage :=
  ⟨systemRole, AIContent.plain systemContent⟩ :: (sliceLast6 messages).map toAIMessage

/-- An eight-entry transcript used to exhibit the trimming behaviour. -/
def exampleTranscript : List ChatMessage :=
  [⟨[], ['a'], none⟩, ⟨[], ['b'], none⟩, ⟨[], ['c'], none⟩, ⟨[], ['d'], none⟩,
   ⟨[], ['e'], none⟩, ⟨[], ['f'], none⟩, ⟨[], ['g'], none⟩, ⟨[], ['h'], none⟩]

/-- Observable outcome of one `callLovableAI` fetch: a non-OK HTTP
status, or an OK response whose `choices[0].message.content` is either a
string or missing/non-string (`none`). -/
inductive ModelResult where
  | notOk : Nat → ModelResult
  | okContent : Option (List Char) → ModelResult
  deriving DecidableEq

inductive ChatOutcome where
  | httpResponse : Nat → List Char → ChatOutcome
  | thrown : List Char → ChatOutcome
  | reply : List Char → ChatOutcome
  deriving DecidableEq

/-- `callLovableAI`'s handling of one gateway response: 429 and 402 are
returned to the caller as mapped responses, any other non-OK status
throws, an OK response yields its content. -/
def gatewayResult : ModelResult → Except ChatOutcome (Option (List Char))
  | ModelResult.notOk 429 =>
      Except.error (ChatOutcome.httpResponse 429
        (("Rate limit exceeded. Please try again in a moment.").toList))
  | ModelResult.notOk 402 =>
      Except.error (ChatOutcome.httpResponse 402
        (("AI credits exhausted. Please add credits to continue.").toList))
  | ModelResult.notOk s =>
      Except.error (ChatOutcome.thrown
        ((("AI service error: ").toList) ++ (toString s).toList))
  | ModelResult.okContent c => Except.ok c

/-- JS emptiness test on the primary/fallback content:
`typeof aiResponse !== "string" || aiResponse.trim().length === 0`. -/
def isEmptyContent : Option (List Char) → Bool
  | none => true
  | some s => (trimChars s).length == 0

/-- The primary-then-fallback model call sequence from the study-chat
function, returning the outcome together with how many times the
fallback model was invoked.  Both calls send the same messages. -/
def runWithFallback (msgs : List AIMessage)
    (primaryF fallbackF : List AIMessage → ModelResult) : ChatOutcome × Nat :=
  match gatewayResult (primaryF msgs) with
  | Except.error o => (o, 0)
  | Except.ok c =>
    if isEmptyContent c then
      match gatewayResult (fallbackF msgs) with
      | Except.error o => (o, 1)
      | Except.ok c2 =>
        if isEmptyContent c2 then
          (ChatOutcome.thrown (("No response from AI").toList), 1)
        else (ChatOutcome.reply (c2.getD []), 1)
    else (ChatOutcome.reply (c.getD []), 0)

/-! ### Session-analysis extraction (study-chat function, end of handler)

The regex `\[ANALYSIS\](.*?)\[\/ANALYSIS\]` with `/s` anchors at the
first opening tag and takes the earliest closing tag after it;
`JSON.parse` is the platform primitive, modelled as a parameter
`parse` whose `none` result is the thrown-and-swallowed parse error. -/

def openTag : List Char := ("[ANALYSIS]").toList

def closeTag : List Char := ("[/ANALYSIS]").toList

/-- Splits `s` around the first occurrence of `pat`:
`some (before, after)` with `s = before ++ pat ++ after`. -/
def splitOnFirst (pat : List Char) : List Char → Option (List Char × List Char)
  | [] => if pat.isPrefixOf ([] : List Char) then some ([], []) else none
  | c :: rest =>
      if pat.isPrefixOf (c :: rest) then some ([], (c :: rest).drop pat.length)
      else
        match splitOnFirst pat rest with
        | some (pre, post) => some (c :: pre, post)
        | none => none

/-- The analysis-extraction step: on a found block whose payload parses,
the block is removed from the reply (which is then trimmed) and the
parsed value surfaced; a parse failure is swallowed, leaving the reply
unmodified and the analysis `none`. -/
def extractAnalysis {α : Type} (parse : List Char → Option α)
    (analyzeSession : Bool) (aiResponse : List Char) : List Char × Option α :=
  if analyzeSession then
    match splitOnFirst openTag aiResponse with
    | none => (aiResponse, none)
    | some (before, rest) =>
      match splitOnFirst closeTag rest with
      | none => (aiResponse, none)
      | some (inner, after) =>
        match parse inner with
        | none => (aiResponse, none)
        | some v => (trimChars (before ++ after), some v)
  else (aiResponse, none)

/-- The fixed-shape analysis record the model is instructed to emit. -/
structure SessionAnalysis where
  understanding : List Char
  topics : List (List Char)
  weakAreas : List (List Char)
  strongAreas : List (List Char)
  deriving DecidableEq

def c10visible : List Char := ("Bahut achha, aapne sab samajh liya!").toList

def c10inner : List Char :=
  ("\x7b\"understanding\":\"good\",\"topics\":[\"algebra\"],\"weakAreas\":[],\"strongAreas\":[\"algebra\"]\x7d").toList

def c10reply : List Char := c10visible ++ openTag ++ c10inner ++ closeTag

def c10record : SessionAnalysis :=
  { understanding := ("good").toList
    topics := [("algebra").toList]
    weakAreas := []
    strongAreas := [("algebra").toList] }

/-- A parse oracle that accepts exactly the example payload. -/
def c10parse (s : List Char) : Option SessionAnalysis :=
  if s = c10inner then some c10record else none

/-- A parse oracle on which every payload is malformed. -/
def c10parseFail (_ : List Char) : Option SessionAnalysis := none

theorem recordFailures_from_record (ts : List Nat) :
    ∀ c la, recordFailures ts (some ⟨c, la, 0⟩) =
      some ⟨c + ts.length, ts.getLastD la, 0⟩ := by
  induction ts with
  | nil => intro c la; simp [recordFailures]
  | cons t ts ih =>
    intro c la
    have h := ih (c + 1) t
    simp only [recordFailures, List.foldl_cons] at h ⊢
    have hstep : recordAttempt t false (some ⟨c, la, 0⟩) = some ⟨c + 1, t, 0⟩ := rfl
    rw [hstep, h, List.getLastD_cons]
    simp only [List.length_cons]
    have harith : c + 1 + ts.length = c + (ts.length + 1) := by omega
    rw [harith]

/-- C1: after 5 failed attempts recorded in the window, the next check
returns `allowed = false` with `waitSeconds = 1800` and installs a hard
block ending `BLOCK_DURATION` (30 minutes) after the check time. -/
theorem claim_C1_block_after_five_failures
    (t : Nat) (rest : List Nat) (now : Nat)
    (hlen : (t :: rest).length = 5)
    (hwin : ∀ x ∈ t :: rest, now - x ≤ RATE_LIMIT_WINDOW) :
    checkRateLimit now (recordFailures (t :: rest) none) =
      (⟨false, some 1800⟩,
       some ⟨5, rest.getLastD t, now + BLOCK_DURATION⟩) := by
  have hlen' : rest.length = 4 := by simpa using hlen
  have hfold : recordFailures (t :: rest) none = some ⟨5, rest.getLastD t, 0⟩ := by
    have h1 : recordFailures (t :: rest) none =
        recordFailures rest (some ⟨1, t, 0⟩) := by
      simp [recordFailures, recordAttempt]
    rw [h1, recordFailures_from_record]
    rw [hlen']
  rw [hfold]
  have hmem : rest.getLastD t ∈ t :: rest := List.getLastD_mem_cons rest t
  have hlast : now - rest.getLastD t ≤ RATE_LIMIT_WINDOW := hwin _ hmem
  simp only [checkRateLimit]
  rw [if_neg (by omega)]
  rw [if_neg (by omega)]
  rw [if_pos (by simp [MAX_ATTEMPTS])]
  rfl

theorem claim_C1_witness :
    ([0, 0, 0, 0, 0] : List Nat).length = 5
    ∧ (∀ x ∈ ([0, 0, 0, 0, 0] : List Nat), 7 - x ≤ RATE_LIMIT_WINDOW)
    ∧ checkRateLimit 7 (recordFailures [0, 0, 0, 0, 0] none) =
        (⟨false, some 1800⟩, some ⟨5, 0, 7 + BLOCK_DURATION⟩) :=
  ⟨by decide, by decide,
    claim_C1_block_after_five_failures 0 [0, 0, 0, 0] 7 (by decide) (by decide)⟩

/-- C2: while a block is active, a check returns `allowed = false` with
`waitSeconds` the seconds remaining until the block end rounded up, and
leaves the record unchanged; recording a further failed attempt updates
count and last-attempt time but keeps the block end fixed. -/
theorem claim_C2_block_is_fixed
    (now now2 : Nat) (record : RateRecord)
    (hblock : record.blockedUntil > now) :
    checkRateLimit now (some record) =
      (⟨false, some (jsCeilDiv (record.blockedUntil - now) 1000)⟩, some record)
    ∧ recordAttempt now2 false (some record) =
        some ⟨record.count + 1, now2, record.blockedUntil⟩ := by
  constructor
  · simp [checkRateLimit, hblock]
  · rfl

theorem claim_C2_witness :
    checkRateLimit 50000 (some ⟨5, 0, 100000⟩) =
      (⟨false, some 50⟩, some ⟨5, 0, 100000⟩)
    ∧ recordAttempt 60000 false (some ⟨5, 0, 100000⟩) =
        some ⟨6, 60000, 100000⟩ :=
  claim_C2_block_is_fixed 50000 60000 ⟨5, 0, 100000⟩ (by decide)

/-- C6: recording a success deletes the identifier's record, and the
next failed attempt starts a fresh record with count 1. -/
theorem claim_C6_success_resets
    (now now2 : Nat) (st : Option RateRecord) :
    recordAttempt now true st = none
    ∧ recordAttempt now2 false (recordAttempt now true st) =
        some ⟨1, now2, 0⟩ := by
  exact ⟨rfl, rfl⟩

theorem or_eq_zero_iff_both (a b : Nat) : a ||| b = 0 ↔ a = 0 ∧ b = 0 := by
  constructor
  · intro h
    have hb : ∀ i, (a ||| b).testBit i = false := by
      intro i; rw [h]; exact Nat.zero_testBit i
    constructor
    · apply Nat.eq_of_testBit_eq
      intro i
      have hi := hb i
      rw [Nat.testBit_or] at hi
      rcases Bool.or_eq_false_iff.mp hi with ⟨h1, h2⟩
      rw [h1, Nat.zero_testBit]
    · apply Nat.eq_of_testBit_eq
      intro i
      have hi := hb i
      rw [Nat.testBit_or] at hi
      rcases Bool.or_eq_false_iff.mp hi with ⟨h1, h2⟩
      rw [h2, Nat.zero_testBit]
  · rintro ⟨rfl, rfl⟩
    rfl

theorem foldl_or_eq_zero (l : List Nat) : ∀ acc : Nat,
    l.foldl (fun r x => r ||| x) acc = 0 ↔ acc = 0 ∧ ∀ x ∈ l, x = 0 := by
  induction l with
  | nil => intro acc; simp
  | cons y l ih =>
    intro acc
    simp only [List.foldl_cons]
    rw [ih, or_eq_zero_iff_both]
    constructor
    · rintro ⟨⟨h1, h2⟩, h3⟩
      refine ⟨h1, ?_⟩
      intro x hx
      rcases List.mem_cons.mp hx with h | h
      · rw [h]; exact h2
      · exact h3 x h
    · rintro ⟨h1, h2⟩
      exact ⟨⟨h1, h2 y (List.mem_cons_self y l)⟩,
        fun x hx => h2 x (List.mem_cons_of_mem y hx)⟩

theorem zipWith_xor_eq_iff : ∀ (a b : List Nat), a.length = b.length →
    ((∀ x ∈ List.zipWith (fun x y => x ^^^ y) a b, x = 0) ↔ a = b) := by
  intro a
  induction a with
  | nil =>
    intro b hb
    cases b with
    | nil => simp
    | cons y b => simp at hb
  | cons x a ih =>
    intro b hb
    cases b with
    | nil => simp at hb
    | cons y b =>
      have hb' : a.length = b.length := by simpa using hb
      simp only [List.zipWith_cons_cons, List.mem_cons]
      constructor
      · intro h
        have hx : x = y := Nat.xor_eq_zero.mp (h _ (Or.inl rfl))
        have hab : a = b := (ih b hb').mp (fun z hz => h z (Or.inr hz))
        rw [hx, hab]
      · intro h
        injection h with h1 h2
        intro z hz
        rcases hz with hz | hz
        · rw [hz, h1]; exact Nat.xor_self y
        · exact ((ih b hb').mpr h2) z hz

theorem secureCompare_eq_iff (a b : List Nat) : secureCompare a b = true ↔ a = b := by
  unfold secureCompare
  by_cases hl : a.length = b.length
  · rw [if_neg (by simp [hl]), beq_iff_eq, foldl_or_eq_zero]
    simp only [eq_self_iff_true, true_and]
    exact zipWith_xor_eq_iff a b hl
  · rw [if_pos (by simpa using hl)]
    constructor
    · intro h; cases h
    · intro h; subst h; exact absurd rfl hl

/-- C3: the login acceptance test succeeds exactly when the salted hex
SHA-256 digest of the submitted password equals the stored credential or
the password itself equals it (legacy plaintext); `secureCompare` is
equality; `verifyPassword` accepts the password that produced the stored
hash and rejects any password whose salted digest differs.  (That both
checks are evaluated before failure is declared is an evaluation-order
fact of the handler; the embedding computes both unconditionally.) -/
theorem claim_C3_password_verification :
    (∀ pw stored secret : List Nat,
        loginPasswordCheck pw stored secret = true ↔
          (hashPassword pw secret = stored ∨ pw = stored))
    ∧ (∀ a b : List Nat, secureCompare a b = true ↔ a = b)
    ∧ (∀ pw secret : List Nat,
        verifyPassword pw (hashPassword pw secret) secret = true)
    ∧ (∀ pw q secret : List Nat,
        hashPassword q secret ≠ hashPassword pw secret →
          verifyPassword q (hashPassword pw secret) secret = false) := by
  refine ⟨?_, secureCompare_eq_iff, ?_, ?_⟩
  · intro pw stored secret
    unfold loginPasswordCheck verifyPassword
    rw [Bool.or_eq_true, secureCompare_eq_iff, secureCompare_eq_iff]
  · intro pw secret
    exact (secureCompare_eq_iff _ _).mpr rfl
  · intro pw q secret hne
    unfold verifyPassword
    cases h : secureCompare (hashPassword q secret) (hashPassword pw secret) with
    | false => rfl
    | true => exact absurd ((secureCompare_eq_iff _ _).mp h) hne

theorem claim_C3_witness :
    hashPassword [98] [] ≠ hashPassword [97] []
    ∧ verifyPassword [98] (hashPassword [97] []) [] = false :=
  have h : hashPassword [98] [] ≠ hashPassword [97] [] := by decide
  ⟨h, claim_C3_password_verification.2.2.2 [97] [98] [] h⟩

theorem checkRateLimit_allowed_state (now : Nat) (st : Option RateRecord)
    (h : (checkRateLimit now st).1.allowed = true) :
    (checkRateLimit now st).2 = st ∨ (checkRateLimit now st).2 = none := by
  match st with
  | none => left; rfl
  | some record =>
    simp only [checkRateLimit] at h ⊢
    by_cases h1 : record.blockedUntil > now
    · rw [if_pos h1] at h; simp at h
    · rw [if_neg h1] at h ⊢
      by_cases h2 : now - record.lastAttempt > RATE_LIMIT_WINDOW
      · rw [if_pos h2]; right; rfl
      · rw [if_neg h2] at h ⊢
        by_cases h3 : record.count ≥ MAX_ATTEMPTS
        · rw [if_pos h3] at h; simp at h
        · rw [if_neg h3]; left; rfl

/-- C4: a school login that passes the rate check and finds a banned
school returns HTTP 403 with the suspension message for every supplied
password (so the outcome is decided before any password verification),
and no failed attempt is recorded: the final rate-limit state is exactly
the post-rate-check state, which is the initial state or, when the
window had lapsed, its lazy deletion. -/
theorem claim_C4_banned_school_before_password
    (now : Nat) (st : Option RateRecord) (school : SchoolRow)
    (password secret : List Nat)
    (hallowed : (checkRateLimit now st).1.allowed = true)
    (hban : school.is_banned = true) :
    schoolLoginStep now st (Lookup.found school) password secret =
      (⟨403, some ("This school account has been suspended"), false⟩,
        (checkRateLimit now st).2)
    ∧ ((checkRateLimit now st).2 = st ∨ (checkRateLimit now st).2 = none) := by
  constructor
  · simp only [schoolLoginStep, hallowed, Bool.not_true, Bool.false_eq_true,
      if_false, hban, if_true]
  · exact checkRateLimit_allowed_state now st hallowed

theorem claim_C4_witness :
    schoolLoginStep 0 none (Lookup.found ⟨[], true⟩) [] [] =
      (⟨403, some ("This school account has been suspended"), false⟩, none) := by
  have h := claim_C4_banned_school_before_password 0 none ⟨[], true⟩ [] []
    (by decide) rfl
  exact h.1

/-- C5 counterexample: when the admin lookup itself errors, the handler
returns 401 with the message "Authentication failed", not the claimed
"Invalid credentials". -/
theorem claim_C5_counterexample :
    (adminLoginStep 0 none Lookup.err [] []).1.status = 401
    ∧ (adminLoginStep 0 none Lookup.err [] []).1.errorMsg ≠
        some ("Invalid credentials") := by
  constructor
  · rfl
  · intro h
    have : ("Authentication failed" : String) = "Invalid credentials" :=
      Option.some.inj h
    simp at this

/-- C5 (amended): a login that passes the rate check and whose principal
lookup finds no row or errors records a failed attempt against the
rate-limit key and returns HTTP 401 with a generic message — "Invalid
credentials" when no row is found, "Authentication failed" when the
lookup errors — in both the admin and the school branch. -/
theorem claim_C5_lookup_failure_generic
    (now : Nat) (st : Option RateRecord) (password secret : List Nat)
    (hallowed : (checkRateLimit now st).1.allowed = true) :
    adminLoginStep now st Lookup.err password secret =
      (⟨401, some ("Authentication failed"), false⟩,
        recordAttempt now false (checkRateLimit now st).2)
    ∧ adminLoginStep now st Lookup.notFound password secret =
      (⟨401, some ("Invalid credentials"), false⟩,
        recordAttempt now false (checkRateLimit now st).2)
    ∧ schoolLoginStep now st Lookup.err password secret =
      (⟨401, some ("Authentication failed"), false⟩,
        recordAttempt now false (checkRateLimit now st).2)
    ∧ schoolLoginStep now st Lookup.notFound password secret =
      (⟨401, some ("Invalid credentials"), false⟩,
        recordAttempt now false (checkRateLimit now st).2) := by
  refine ⟨?_, ?_, ?_, ?_⟩ <;>
    simp only [adminLoginStep, schoolLoginStep, hallowed, Bool.not_true,
      Bool.false_eq_true, if_false]

theorem claim_C5_witness :
    adminLoginStep 0 none Lookup.err [] [] =
      (⟨401, some ("Authentication failed"), false⟩, some ⟨1, 0, 0⟩) := by
  have h := claim_C5_lookup_failure_generic 0 none [] [] (by decide)
  exact h.1

theorem splitUnderscore_no_sep : ∀ tok : List Char, (∀ c ∈ tok, c ≠ '_') →
    splitUnderscore tok = [tok] := by
  intro tok
  induction tok with
  | nil => intro _; rfl
  | cons c rest ih =>
    intro h
    have hc : c ≠ '_' := h c (List.mem_cons_self c rest)
    have hrest := ih (fun x hx => h x (List.mem_cons_of_mem c hx))
    simp only [splitUnderscore, hrest]
    rw [if_neg hc]

/-- C7: in the get-students admin branch, authorization is granted iff
the `split('_')[1]` fragment of the session token resolves to an admin
row; every request is answered 200 or 401; and any token without an
underscore — such as the `crypto.randomUUID()` tokens minted at login —
derives no admin id and is rejected with 401.  The hypothesis states
that the uuid lookup for a JS-undefined id returns no row. -/
theorem claim_C7_admin_session_token_fragment
    (lookupAdmin : Option (List Char) → Option GsAdminRow) (token : List Char)
    (hundef : lookupAdmin none = none) :
    (getStudentsAdminStatus lookupAdmin token = 200 ↔
      ∃ id row, deriveAdminId token = some id ∧ lookupAdmin (some id) = some row)
    ∧ (getStudentsAdminStatus lookupAdmin token = 200 ∨
        getStudentsAdminStatus lookupAdmin token = 401)
    ∧ ((∀ c ∈ token, c ≠ '_') →
        deriveAdminId token = none ∧ getStudentsAdminStatus lookupAdmin token = 401) := by
  refine ⟨?_, ?_, ?_⟩
  · cases hd : deriveAdminId token with
    | none =>
      simp only [getStudentsAdminStatus, hd, hundef]
      constructor
      · intro h; simp at h
      · rintro ⟨id, row, hid, _⟩; cases hid
    | some id =>
      simp only [getStudentsAdminStatus, hd]
      cases hl : lookupAdmin (some id) with
      | none =>
        constructor
        · intro h; simp at h
        · rintro ⟨id', row, hid, hrow⟩
          have hii : id = id' := by injection hid
          rw [← hii, hl] at hrow
          cases hrow
      | some row =>
        constructor
        · intro _; exact ⟨id, row, rfl, hl⟩
        · intro _; rfl
  · cases hd : lookupAdmin (deriveAdminId token) with
    | none => right; simp [getStudentsAdminStatus, hd]
    | some row => left; simp [getStudentsAdminStatus, hd]
  · intro h
    have hsplit := splitUnderscore_no_sep token h
    have hid : deriveAdminId token = none := by
      simp [deriveAdminId, hsplit]
    exact ⟨hid, by simp [getStudentsAdminStatus, hid, hundef]⟩

theorem claim_C7_witness :
    deriveAdminId (("123e4567-e89b-42d3-a456-426614174000").toList) = none
    ∧ getStudentsAdminStatus (fun _ => none)
        (("123e4567-e89b-42d3-a456-426614174000").toList) = 401 := by
  have h := claim_C7_admin_session_token_fragment (fun _ => none)
    (("123e4567-e89b-42d3-a456-426614174000").toList) rfl
  exact h.2.2 (by decide)

/-- C8: the model receives the system message followed by exactly the
last `min 6 (length)` transcript entries in their original order; any
earlier entries are the dropped prefix; an 8-entry transcript forwards
exactly its last 6 entries. -/
theorem claim_C8_transcript_trimming (sys : List Char) (messages : List ChatMessage) :
    buildChatMessages sys messages =
      ⟨systemRole, AIContent.plain sys⟩ ::
        (messages.drop (messages.length - 6)).map toAIMessage
    ∧ (messages.drop (messages.length - 6)).length = min 6 messages.length
    ∧ messages.take (messages.length - 6) ++ messages.drop (messages.length - 6) =
        messages
    ∧ (messages.length = 8 →
        messages.drop (messages.length - 6) = messages.drop 2) := by
  refine ⟨rfl, ?_, List.take_append_drop _ _, ?_⟩
  · rw [List.length_drop]
    omega
  · intro h
    rw [h]

theorem claim_C8_witness :
    exampleTranscript.length = 8
    ∧ exampleTranscript.drop (exampleTranscript.length - 6) = exampleTranscript.drop 2
    ∧ buildChatMessages [] exampleTranscript =
        ⟨systemRole, AIContent.plain []⟩ ::
          (exampleTranscript.drop 2).map toAIMessage := by
  have h := claim_C8_transcript_trimming [] exampleTranscript
  have h8 : exampleTranscript.length = 8 := by decide
  have hdrop := h.2.2.2 h8
  exact ⟨h8, hdrop, by rw [h.1, hdrop]⟩

theorem gatewayResult_ok (c : Option (List Char)) :
    gatewayResult (ModelResult.okContent c) = Except.ok c := rfl

/-- C9: when the primary call is OK but its content is missing or trims
to empty, the fallback is invoked exactly once; non-empty fallback
content becomes the reply; empty fallback content throws the error path;
and the fallback count is 0 whenever the primary content is non-empty,
never exceeding 1 in any case.  Both calls send the same `msgs`. -/
theorem claim_C9_fallback_exactly_once (msgs : List AIMessage)
    (primaryF fallbackF : List AIMessage → ModelResult) :
    (runWithFallback msgs primaryF fallbackF).2 ≤ 1
    ∧ (∀ s, primaryF msgs = ModelResult.okContent (some s) →
        isEmptyContent (some s) = false →
        runWithFallback msgs primaryF fallbackF = (ChatOutcome.reply s, 0))
    ∧ (∀ c, primaryF msgs = ModelResult.okContent c → isEmptyContent c = true →
        ((runWithFallback msgs primaryF fallbackF).2 = 1
        ∧ (∀ s2, fallbackF msgs = ModelResult.okContent (some s2) →
            isEmptyContent (some s2) = false →
            runWithFallback msgs primaryF fallbackF = (ChatOutcome.reply s2, 1))
        ∧ (∀ c2, fallbackF msgs = ModelResult.okContent c2 →
            isEmptyContent c2 = true →
            runWithFallback msgs primaryF fallbackF =
              (ChatOutcome.thrown (("No response from AI").toList), 1)))) := by
  refine ⟨?_, ?_, ?_⟩
  · cases hres : gatewayResult (primaryF msgs) with
    | error o => simp [runWithFallback, hres]
    | ok c =>
      by_cases hc : isEmptyContent c = true
      · cases hres2 : gatewayResult (fallbackF msgs) with
        | error o => simp [runWithFallback, hres, hres2, hc]
        | ok c2 =>
          by_cases hc2 : isEmptyContent c2 = true
          · simp [runWithFallback, hres, hres2, hc, hc2]
          · simp [runWithFallback, hres, hres2, hc, hc2]
      · simp [runWithFallback, hres, hc]
  · intro s h1 h2
    simp only [runWithFallback, h1, gatewayResult_ok]
    rw [if_neg (by simp [h2])]
    rfl
  · intro c h1 h2
    refine ⟨?_, ?_, ?_⟩
    · simp only [runWithFallback, h1, gatewayResult_ok]
      rw [if_pos h2]
      cases hres2 : gatewayResult (fallbackF msgs) with
      | error o => simp [hres2]
      | ok c2 =>
        by_cases hc2 : isEmptyContent c2 = true
        · simp [hres2, hc2]
        · simp [hres2, hc2]
    · intro s2 h3 h4
      simp only [runWithFallback, h1, gatewayResult_ok]
      rw [if_pos h2]
      simp only [h3, gatewayResult_ok]
      rw [if_neg (by simp [h4])]
      rfl
    · intro c2 h3 h4
      simp only [runWithFallback, h1, gatewayResult_ok]
      rw [if_pos h2]
      simp only [h3, gatewayResult_ok]
      rw [if_pos h4]

theorem claim_C9_witness :
    runWithFallback [] (fun _ => ModelResult.okContent (some []))
      (fun _ => ModelResult.okContent (some (('h') :: ('i') :: []))) =
      (ChatOutcome.reply (('h') :: ('i') :: []), 1) := by
  have h := claim_C9_fallback_exactly_once []
    (fun _ => ModelResult.okContent (some []))
    (fun _ => ModelResult.okContent (some (('h') :: ('i') :: [])))
  exact (h.2.2 (some []) rfl (by decide)).2.1 (('h') :: ('i') :: []) rfl (by decide)

theorem splitOnFirst_eq (pat : List Char) :
    ∀ s pre post, splitOnFirst pat s = some (pre, post) →
      s = pre ++ pat ++ post := by
  intro s
  induction s with
  | nil =>
    intro pre post h
    cases pat with
    | nil =>
      simp only [splitOnFirst, List.isPrefixOf] at h
      injection h with h'
      injection h' with h1 h2
      rw [← h1, ← h2]
      rfl
    | cons x xs =>
      simp [splitOnFirst, List.isPrefixOf] at h
  | cons c rest ih =>
    intro pre post h
    unfold splitOnFirst at h
    by_cases hp : pat.isPrefixOf (c :: rest) = true
    · rw [if_pos hp] at h
      injection h with h'
      injection h' with h1 h2
      obtain ⟨t, ht⟩ := List.isPrefixOf_iff_prefix.mp hp
      rw [← h1, ← h2, ← ht, List.nil_append, List.drop_left]
    · rw [if_neg hp] at h
      cases hsp : splitOnFirst pat rest with
      | none => rw [hsp] at h; cases h
      | some pr =>
        obtain ⟨pre', post'⟩ := pr
        rw [hsp] at h
        injection h with h'
        injection h' with h1 h2
        have hrest := ih pre' post' hsp
        rw [← h1, ← h2, List.cons_append, List.cons_append, hrest]

/-- C10: when analysis is requested and the reply contains a delimited
analysis block (here characterised by the two first-occurrence splits,
whose reconstruction equation is the first conjunct), a payload the
parser accepts is surfaced with the block stripped from the trimmed
visible reply, while a payload the parser rejects leaves the reply
unmodified with a `none` analysis instead of failing. -/
theorem claim_C10_analysis_extraction {α : Type} (parse : List Char → Option α)
    (reply before rest inner after : List Char)
    (hopen : splitOnFirst openTag reply = some (before, rest))
    (hclose : splitOnFirst closeTag rest = some (inner, after)) :
    reply = before ++ openTag ++ inner ++ closeTag ++ after
    ∧ (∀ v, parse inner = some v →
        extractAnalysis parse true reply = (trimChars (before ++ after), some v))
    ∧ (parse inner = none → extractAnalysis parse true reply = (reply, none)) := by
  refine ⟨?_, ?_, ?_⟩
  · have h1 := splitOnFirst_eq openTag reply before rest hopen
    have h2 := splitOnFirst_eq closeTag rest inner after hclose
    rw [h1, h2]
    simp [List.append_assoc]
  · intro v hv
    simp only [extractAnalysis, if_true, hopen, hclose, hv]
  · intro hv
    simp only [extractAnalysis, if_true, hopen, hclose, hv]

theorem claim_C10_witness :
    extractAnalysis c10parse true c10reply = (c10visible, some c10record)
    ∧ extractAnalysis c10parseFail true c10reply = (c10reply, none)
    ∧ c10record.understanding = ("good").toList := by
  have h := claim_C10_analysis_extraction c10parse c10reply c10visible
    (c10inner ++ closeTag) c10inner [] (by decide) (by decide)
  have hfail := claim_C10_analysis_extraction c10parseFail c10reply c10visible
    (c10inner ++ closeTag) c10inner [] (by decide) (by decide)
  refine ⟨?_, ?_, rfl⟩
  · have hv := h.2.1 c10record (by decide)
    rw [hv]
    have : trimChars (c10visible ++ []) = c10visible := by decide
    rw [this]
  · exact hfail.2.2 rfl

end StudyBuddy
